import Mathlib

/-!
# MenuMind form widget (frontend/src/App.js)

A shallow embedding of the React component `App`: its six state cells, the
three event handlers `handleSubmit`, `handleModelToggle`, `copyToClipboard`,
the part of the rendered tree that depends on the state, and a small model of
the browser around it (pending timers, requests in flight, the clipboard).

Modelling conventions.
* JavaScript strings are Lean strings (sequences of Unicode scalar values; a
  lone surrogate has no counterpart, and no code path inspects one).
* JavaScript numbers are integers: the code only tests numbers for truthiness
  and for strict equality with 429 and 500.
* `await axios.post(...)` splits `handleSubmit` in two: the part that runs
  synchronously (`handleSubmitStart`) and the continuation that runs when the
  promise settles (`handleSubmitResume`). `handleSubmit` is their composition
  with the network given as a function from the request to its outcome.
-/

namespace MenuMind

/-! ## JavaScript values -/

/-- JavaScript values that can reach the component: `undefined`, `null`,
booleans, numbers, strings, arrays and plain objects (as association lists,
the first binding of a key being the one that is read). -/
inductive JSValue where
  | undefined
  | null
  | bool (b : Bool)
  | num (n : Int)
  | str (s : String)
  | arr (items : List JSValue)
  | obj (fields : List (String × JSValue))

/-- ToBoolean: the falsy values are `undefined`, `null`, `false`, `0` and the
empty string. -/
def JSValue.truthy : JSValue → Bool
  | .undefined => false
  | .null => false
  | .bool b => b
  | .num n => n != 0
  | .str s => s != ""
  | .arr _ => true
  | .obj _ => true

/-- The test `v == null`: true of `null` and of `undefined`. -/
def JSValue.isNullish : JSValue → Bool
  | .undefined => true
  | .null => true
  | _ => false

/-- Optional property read `v?.key`: `undefined` when `v` is nullish or has
no own property `key`. The component reads only the keys `data`, `error`,
`status`, `item_name`, `description`, `upsell_suggestion`, `model_used` and
`generated_at`, none of which is a built-in property of a string, number,
boolean or array, so those receivers give `undefined`. A plain read `v.key`
agrees with `v?.key` on every receiver that is not nullish, and the component
uses the plain read only on receivers it has tested to be truthy. -/
def JSValue.get (v : JSValue) (key : String) : JSValue :=
  match v with
  | .obj fields => (fields.lookup key).getD .undefined
  | _ => .undefined

/-- WhiteSpace and LineTerminator code points of ECMAScript, the characters
`String.prototype.trim` strips. -/
def isJSWhiteSpace (c : Char) : Bool :=
  let n := c.toNat
  n == 0x09 || n == 0x0A || n == 0x0B || n == 0x0C || n == 0x0D || n == 0x20 ||
  n == 0xA0 || n == 0x1680 || (0x2000 ≤ n && n ≤ 0x200A) || n == 0x2028 ||
  n == 0x2029 || n == 0x202F || n == 0x205F || n == 0x3000 || n == 0xFEFF

/-- Characters of a string with leading and trailing white space removed. -/
def trimChars (l : List Char) : List Char :=
  ((l.dropWhile isJSWhiteSpace).reverse.dropWhile isJSWhiteSpace).reverse

/-- The method `String.prototype.trim`. -/
def jsTrim (s : String) : String :=
  String.mk (trimChars s.data)

/-- ToBoolean of a string: `!s` is `true` exactly for the empty string. -/
def strTruthy (s : String) : Bool :=
  (JSValue.str s).truthy

/-! ## Component state -/

/-- The six `useState` cells of `App` (lines 7-12). `success` only ever
receives `null` or a string literal, `error` and `result` may receive any
value found in a response. -/
structure State where
  itemName : String
  model : String
  loading : Bool
  result : JSValue
  error : JSValue
  success : Option String

/-- Initial values of the state cells (lines 7-12). -/
def initialState : State :=
  { itemName := "", model := "gpt-3.5-turbo", loading := false,
    result := .null, error := .null, success := none }

/-- Body of the POST request (lines 28-31). -/
structure Request where
  item_name : String
  model : String
deriving DecidableEq

/-- An axios response: the parsed body and the HTTP status. -/
structure AxiosResponse where
  data : JSValue
  status : Nat

/-- The error axios rejects with; `response` is absent when no response was
received. -/
structure AxiosError where
  response : Option AxiosResponse

/-- How the promise returned by `axios.post` settles. -/
inductive Outcome where
  | resolved (response : AxiosResponse)
  | rejected (err : AxiosError)

/-- The one callback the component hands to `setTimeout`:
`() => setSuccess(null)` (line 59). -/
inductive Callback where
  | clearSuccess
deriving DecidableEq

/-- Calls the handlers make to the outside world, in the order made. -/
inductive Effect where
  | post (url : String) (body : Request)
  | consoleError (label : String) (err : AxiosError)
  | clipboardWrite (text : JSValue)
  | setTimeout (cb : Callback) (ms : Nat)

/-- Whether an effect is a POST request. -/
def Effect.isPost : Effect → Bool
  | .post _ _ => true
  | _ => false

/-! ## Handlers -/

/-- The `onChange` handler of the text input (line 80). -/
def setItemName (text : String) (s : State) : State :=
  { s with itemName := text }

/-- The expression `err.response?.data?.error` (line 38). -/
def errorField (err : AxiosError) : JSValue :=
  match err.response with
  | none => .undefined
  | some r => r.data.get "error"

/-- The expression `err.response?.status` (lines 40 and 42), `none` standing
for `undefined`. -/
def errorStatus (err : AxiosError) : Option Nat :=
  err.response.map (fun r => r.status)

/-- The value passed to `setError` in the `catch` block (lines 38-46). -/
def errorMessage (err : AxiosError) : JSValue :=
  if (errorField err).truthy then
    errorField err
  else if errorStatus err = some 429 then
    .str "Rate limit exceeded. Please wait a moment before trying again."
  else if errorStatus err = some 500 then
    .str "Server error. Please try again later."
  else
    .str "Failed to generate content. Please check your connection and try again."

/-- The synchronous part of `handleSubmit` (lines 15-31): validation, then
the four state resets and the request that is handed to `axios.post`. The
call `e.preventDefault()` touches no state cell and is left out. -/
def handleSubmitStart (s : State) : State × Option Request :=
  if !strTruthy (jsTrim s.itemName) then
    ({ s with error := .str "Please enter a food item name" }, none)
  else
    ({ s with loading := true, error := .null, success := none, result := .null },
      some { item_name := jsTrim s.itemName, model := s.model })

/-- The continuation of `handleSubmit` after the `await` (lines 33-49). It
reads no state cell, it only calls setters. -/
def handleSubmitResume (o : Outcome) (s : State) : State × List Effect :=
  match o with
  | .resolved response =>
    ({ s with result := response.data, success := some "Content generated successfully!",
              loading := false }, [])
  | .rejected err =>
    ({ s with error := errorMessage err, loading := false },
      [.consoleError "Error generating content:" err])

/-- The whole of `handleSubmit` (lines 14-50), the network being a function
from the URL and body of a request to the way its promise settles. -/
def handleSubmit (net : String → Request → Outcome) (s : State) : State × List Effect :=
  match handleSubmitStart s with
  | (s1, none) => (s1, [])
  | (s1, some req) =>
    let r := handleSubmitResume (net "/generate-item-details" req) s1
    (r.1, Effect.post "/generate-item-details" req :: r.2)

/-- The updater `prev => prev === 'gpt-3.5-turbo' ? 'gpt-4' : 'gpt-3.5-turbo'`
applied by `handleModelToggle` (lines 52-54). -/
def handleModelToggle (s : State) : State :=
  { s with model := if s.model = "gpt-3.5-turbo" then "gpt-4" else "gpt-3.5-turbo" }

/-- The handler `copyToClipboard` (lines 56-60): the call of
`navigator.clipboard.writeText`, the new success message, and the timer. The
promise `writeText` returns is dropped by the handler and is not modelled. -/
def copyToClipboard (text : JSValue) (s : State) : State × List Effect :=
  ({ s with success := some "Copied to clipboard!" },
    [.clipboardWrite text, .setTimeout .clearSuccess 2000])

/-- Running a timer callback. -/
def runCallback (cb : Callback) (s : State) : State :=
  match cb with
  | .clearSuccess => { s with success := none }

/-! ## Rendering -/

/-- The state-dependent children of the result block (lines 134-183). -/
structure ResultView where
  heading : JSValue
  description : JSValue
  descriptionCopy : JSValue
  upsell : JSValue
  upsellCopy : JSValue
  modelUsed : JSValue

/-- The state-dependent parts of the rendered tree (lines 62-193). -/
structure View where
  inputValue : String
  inputDisabled : Bool
  toggleChecked : Bool
  toggleDisabled : Bool
  submitDisabled : Bool
  errorBanner : Option JSValue
  successBanner : Option String
  resultBlock : Option ResultView

/-- The result block `result && (...)` (lines 134-183): what is shown in
the two paragraphs and what the two Copy buttons pass to `copyToClipboard`. -/
def renderResult (result : JSValue) : Option ResultView :=
  if result.truthy then
    some { heading := result.get "item_name",
           description := result.get "description",
           descriptionCopy := result.get "description",
           upsell := result.get "upsell_suggestion",
           upsellCopy := result.get "upsell_suggestion",
           modelUsed := result.get "model_used" }
  else none

/-- The JSX returned by `App` (lines 62-193). -/
def render (s : State) : View :=
  { inputValue := s.itemName,
    inputDisabled := s.loading,
    toggleChecked := decide (s.model = "gpt-4"),
    toggleDisabled := s.loading,
    submitDisabled := s.loading || !strTruthy (jsTrim s.itemName),
    errorBanner := if s.error.truthy then some s.error else none,
    successBanner := match s.success with
      | some m => if strTruthy m then some m else none
      | none => none,
    resultBlock := renderResult s.result }

/-! ## The browser around the component -/

/-- A pending `setTimeout` callback and the time, in milliseconds, at which
it is due. -/
structure Timer where
  due : Nat
  cb : Callback

/-- The component together with its environment: the clock, the pending
timers (oldest first), the last text handed to the clipboard, the bodies of
the requests that have not settled yet, and every effect performed so far. -/
structure World where
  state : State
  now : Nat
  timers : List Timer
  clipboard : Option JSValue
  inFlight : List Request
  log : List Effect

/-- The freshly mounted component. -/
def initialWorld : World :=
  { state := initialState, now := 0, timers := [], clipboard := none,
    inFlight := [], log := [] }

/-- What an effect does to the environment. -/
def perform (w : World) (e : Effect) : World :=
  match e with
  | .post _ body => { w with inFlight := w.inFlight ++ [body], log := w.log ++ [e] }
  | .consoleError _ _ => { w with log := w.log ++ [e] }
  | .clipboardWrite text => { w with clipboard := some text, log := w.log ++ [e] }
  | .setTimeout cb ms =>
    { w with timers := w.timers ++ [{ due := w.now + ms, cb := cb }], log := w.log ++ [e] }

/-- Running the callbacks of a list of timers, in order. -/
def fireAll (timers : List Timer) (s : State) : State :=
  timers.foldl (fun acc t => runCallback t.cb acc) s

/-- What can happen to the mounted component: typing into the input, clicking
the toggle, submitting the form, the settling of the request at position `i`
of those in flight, a click on a Copy button, and the passing of `ms`
milliseconds (every timer that falls due in that span fires). No event is
filtered by the `disabled` attributes, so the worlds reachable here include
every world the real page can reach. -/
inductive Event where
  | input (text : String)
  | toggle
  | submit
  | settle (i : Nat) (o : Outcome)
  | copy (text : JSValue)
  | tick (ms : Nat)

/-- One event. -/
def step (w : World) (e : Event) : World :=
  match e with
  | .input text => { w with state := setItemName text w.state }
  | .toggle => { w with state := handleModelToggle w.state }
  | .submit =>
    match handleSubmitStart w.state with
    | (s1, none) => { w with state := s1 }
    | (s1, some req) => perform { w with state := s1 } (.post "/generate-item-details" req)
  | .settle i o =>
    if i < w.inFlight.length then
      (handleSubmitResume o w.state).2.foldl perform
        { w with state := (handleSubmitResume o w.state).1, inFlight := w.inFlight.eraseIdx i }
    else w
  | .copy text =>
    (copyToClipboard text w.state).2.foldl perform
      { w with state := (copyToClipboard text w.state).1 }
  | .tick ms =>
    { w with now := w.now + ms,
             state := fireAll (w.timers.filter (fun t => decide (t.due ≤ w.now + ms))) w.state,
             timers := w.timers.filter (fun t => !decide (t.due ≤ w.now + ms)) }

/-- A sequence of events. -/
def run (w : World) (evs : List Event) : World :=
  evs.foldl step w

/-- Milliseconds that pass during a sequence of events. -/
def elapsed : List Event → Nat
  | [] => 0
  | .tick ms :: rest => ms + elapsed rest
  | _ :: rest => elapsed rest

/-- The two model identifiers the toggle switches between (lines 8, 53). -/
def IsModel (m : String) : Prop :=
  m = "gpt-3.5-turbo" ∨ m = "gpt-4"

/-! ## Error messages -/

/-- The message of the validation branch (line 18). -/
def validationMessage : JSValue :=
  .str "Please enter a food item name"

/-- The message of the 429 branch (line 41). -/
def rateLimitMessage : JSValue :=
  .str "Rate limit exceeded. Please wait a moment before trying again."

/-- The message of the 500 branch (line 43). -/
def serverErrorMessage : JSValue :=
  .str "Server error. Please try again later."

/-- The message of the last branch (line 45). -/
def genericMessage : JSValue :=
  .str "Failed to generate content. Please check your connection and try again."

/-! ## Basic facts about the handlers -/

theorem strTruthy_eq_true_iff (s : String) : strTruthy s = true ↔ s ≠ "" := by
  simp [strTruthy, JSValue.truthy]

theorem strTruthy_empty : strTruthy "" = false := by
  simp [strTruthy, JSValue.truthy]

theorem trimChars_eq_nil_iff (l : List Char) :
    trimChars l = [] ↔ ∀ c ∈ l, isJSWhiteSpace c = true := by
  unfold trimChars
  rw [List.reverse_eq_nil_iff, List.dropWhile_eq_nil_iff]
  constructor
  · intro h
    rw [← List.dropWhile_eq_nil_iff]
    cases hd : l.dropWhile isJSWhiteSpace with
    | nil => rfl
    | cons a t =>
      have hnot := List.head?_dropWhile_not isJSWhiteSpace l
      rw [hd] at hnot h
      have ha : isJSWhiteSpace a = true := h a (by simp)
      simp [ha] at hnot
  · intro h c hc
    rw [(List.dropWhile_eq_nil_iff).2 h] at hc
    simp at hc

theorem jsTrim_eq_empty_iff (s : String) :
    jsTrim s = "" ↔ ∀ c ∈ s.data, isJSWhiteSpace c = true := by
  rw [← trimChars_eq_nil_iff, String.ext_iff]
  rfl

theorem handleSubmitStart_blank (s : State) (h : jsTrim s.itemName = "") :
    handleSubmitStart s = ({ s with error := validationMessage }, none) := by
  simp [handleSubmitStart, h, strTruthy_empty, validationMessage]

theorem handleSubmitStart_named (s : State) (h : strTruthy (jsTrim s.itemName) = true) :
    handleSubmitStart s =
      ({ s with loading := true, error := .null, success := none, result := .null },
        some { item_name := jsTrim s.itemName, model := s.model }) := by
  simp [handleSubmitStart, h]

theorem handleSubmit_blank (net : String → Request → Outcome) (s : State)
    (h : jsTrim s.itemName = "") :
    handleSubmit net s = ({ s with error := validationMessage }, []) := by
  simp [handleSubmit, handleSubmitStart_blank s h]

theorem handleSubmit_named (net : String → Request → Outcome) (s : State)
    (h : strTruthy (jsTrim s.itemName) = true) :
    handleSubmit net s =
      ((handleSubmitResume
          (net "/generate-item-details" { item_name := jsTrim s.itemName, model := s.model })
          { s with loading := true, error := .null, success := none, result := .null }).1,
        Effect.post "/generate-item-details" { item_name := jsTrim s.itemName, model := s.model }
          :: (handleSubmitResume
          (net "/generate-item-details" { item_name := jsTrim s.itemName, model := s.model })
          { s with loading := true, error := .null, success := none, result := .null }).2) := by
  simp [handleSubmit, handleSubmitStart_named s h]

theorem step_submit_blank (w : World) (h : jsTrim w.state.itemName = "") :
    step w .submit = { w with state := { w.state with error := validationMessage } } := by
  simp [step, handleSubmitStart_blank w.state h]

/-! ## Validation -/

/-- C1: when the item name is empty or made of white space only, its trim
is the empty string, `handleSubmit` performs no effect at all (in particular
no POST), hands no request to axios, leaves the requests in flight and the
effect log of the page as they were, and the stored error is exactly
"Please enter a food item name". -/
theorem handleSubmit_blank_name_no_post (net : String → Request → Outcome) (w : World)
    (h : ∀ c ∈ w.state.itemName.data, isJSWhiteSpace c = true) :
    jsTrim w.state.itemName = "" ∧
    (handleSubmit net w.state).2 = [] ∧
    (handleSubmitStart w.state).2 = none ∧
    (handleSubmit net w.state).1.error = .str "Please enter a food item name" ∧
    (step w .submit).state.error = .str "Please enter a food item name" ∧
    (step w .submit).inFlight = w.inFlight ∧
    (step w .submit).log = w.log := by
  have ht : jsTrim w.state.itemName = "" := (jsTrim_eq_empty_iff _).2 h
  rw [handleSubmit_blank net w.state ht, handleSubmitStart_blank w.state ht,
    step_submit_blank w ht]
  simp [validationMessage, ht]

/-- C7: a submit rejected by validation changes nothing but the error: the
item name, the model, the loading flag, the success message and the stored
result are those of the starting state. -/
theorem handleSubmit_blank_name_frame (net : String → Request → Outcome) (s : State)
    (h : jsTrim s.itemName = "") :
    (handleSubmit net s).1.itemName = s.itemName ∧
    (handleSubmit net s).1.model = s.model ∧
    (handleSubmit net s).1.loading = s.loading ∧
    (handleSubmit net s).1.success = s.success ∧
    (handleSubmit net s).1.result = s.result ∧
    (handleSubmit net s).1 = { s with error := (handleSubmit net s).1.error } ∧
    (handleSubmit net s).2 = [] := by
  rw [handleSubmit_blank net s h]
  simp

/-! ## Failed requests -/

theorem handleSubmit_rejected_error (net : String → Request → Outcome) (s : State)
    (err : AxiosError) (h : strTruthy (jsTrim s.itemName) = true)
    (hnet : net "/generate-item-details" { item_name := jsTrim s.itemName, model := s.model }
      = .rejected err) :
    (handleSubmit net s).1 =
      { s with loading := false, error := errorMessage err, success := none, result := .null } := by
  rw [handleSubmit_named net s h, hnet]
  simp [handleSubmitResume]

theorem handleSubmit_resolved_state (net : String → Request → Outcome) (s : State)
    (response : AxiosResponse) (h : strTruthy (jsTrim s.itemName) = true)
    (hnet : net "/generate-item-details" { item_name := jsTrim s.itemName, model := s.model }
      = .resolved response) :
    (handleSubmit net s).1 =
      { s with loading := false, error := .null,
               success := some "Content generated successfully!", result := response.data } := by
  rw [handleSubmit_named net s h, hnet]
  simp [handleSubmitResume]

theorem errorMessage_of_truthy (err : AxiosError) (h : (errorField err).truthy = true) :
    errorMessage err = errorField err := by
  simp [errorMessage, h]

theorem errorMessage_of_falsy (err : AxiosError) (h : (errorField err).truthy = false) :
    errorMessage err =
      if errorStatus err = some 429 then rateLimitMessage
      else if errorStatus err = some 500 then serverErrorMessage
      else genericMessage := by
  simp [errorMessage, h, rateLimitMessage, serverErrorMessage, genericMessage]

theorem rateLimit_ne_serverError : rateLimitMessage ≠ serverErrorMessage := by
  simp only [rateLimitMessage, serverErrorMessage, ne_eq, JSValue.str.injEq]
  decide

theorem rateLimit_ne_generic : rateLimitMessage ≠ genericMessage := by
  simp only [rateLimitMessage, genericMessage, ne_eq, JSValue.str.injEq]
  decide

theorem serverError_ne_generic : serverErrorMessage ≠ genericMessage := by
  simp only [serverErrorMessage, genericMessage, ne_eq, JSValue.str.injEq]
  decide

/-- C2, as amended: when the request fails with a response whose body has a
truthy `error` property (a non-empty string, a non-zero number, `true`, an
array or an object), the error stored by `handleSubmit` is that property,
whatever the HTTP status. -/
theorem handleSubmit_truthy_body_error_wins (net : String → Request → Outcome) (s : State)
    (r : AxiosResponse) (h : strTruthy (jsTrim s.itemName) = true)
    (hnet : net "/generate-item-details" { item_name := jsTrim s.itemName, model := s.model }
      = .rejected { response := some r })
    (htruthy : (r.data.get "error").truthy = true) :
    (handleSubmit net s).1.error = r.data.get "error" := by
  rw [handleSubmit_rejected_error net s _ h hnet]
  exact errorMessage_of_truthy { response := some r } htruthy

/-- C2 fails as stated: a 429 response whose body is the object with `error`
equal to the empty string stores the rate-limit message, not the empty
string. -/
theorem handleSubmit_empty_body_error_loses :
    (handleSubmit
        (fun _ _ => .rejected
          { response := some { data := .obj [("error", .str "")], status := 429 } })
        { initialState with itemName := "Pizza" }).1.error
      = .str "Rate limit exceeded. Please wait a moment before trying again." ∧
    (handleSubmit
        (fun _ _ => .rejected
          { response := some { data := .obj [("error", .str "")], status := 429 } })
        { initialState with itemName := "Pizza" }).1.error
      ≠ (JSValue.obj [("error", .str "")]).get "error" := by
  constructor
  · rfl
  · intro hEq
    have h2 : JSValue.str "Rate limit exceeded. Please wait a moment before trying again."
        = JSValue.str "" := hEq
    simp only [JSValue.str.injEq] at h2
    exact absurd h2 (by decide)

/-- C3: when the request fails and `err.response?.data?.error` is falsy
(absent, `undefined`, `null`, `false`, `0` or the empty string), the stored
error depends on the status alone: 429 gives the rate-limit message, 500 the
server-error message, any other status and the absence of a response the
connectivity message; the stored error is exactly one of the three. -/
theorem handleSubmit_status_messages (net : String → Request → Outcome) (s : State)
    (err : AxiosError) (h : strTruthy (jsTrim s.itemName) = true)
    (hnet : net "/generate-item-details" { item_name := jsTrim s.itemName, model := s.model }
      = .rejected err)
    (hfalsy : (errorField err).truthy = false) :
    (errorStatus err = some 429 → (handleSubmit net s).1.error
      = .str "Rate limit exceeded. Please wait a moment before trying again.") ∧
    (errorStatus err = some 500 → (handleSubmit net s).1.error
      = .str "Server error. Please try again later.") ∧
    (errorStatus err ≠ some 429 → errorStatus err ≠ some 500 → (handleSubmit net s).1.error
      = .str "Failed to generate content. Please check your connection and try again.") ∧
    (err.response = none → (handleSubmit net s).1.error
      = .str "Failed to generate content. Please check your connection and try again.") ∧
    (((handleSubmit net s).1.error = rateLimitMessage ∧
        (handleSubmit net s).1.error ≠ serverErrorMessage ∧
        (handleSubmit net s).1.error ≠ genericMessage) ∨
      ((handleSubmit net s).1.error ≠ rateLimitMessage ∧
        (handleSubmit net s).1.error = serverErrorMessage ∧
        (handleSubmit net s).1.error ≠ genericMessage) ∨
      ((handleSubmit net s).1.error ≠ rateLimitMessage ∧
        (handleSubmit net s).1.error ≠ serverErrorMessage ∧
        (handleSubmit net s).1.error = genericMessage)) ∧
    (handleSubmit net s).2.filter (fun e => !e.isPost)
      = [.consoleError "Error generating content:" err] := by
  rw [handleSubmit_rejected_error net s err h hnet, handleSubmit_named net s h, hnet]
  simp only [errorMessage_of_falsy err hfalsy]
  refine ⟨?_, ?_, ?_, ?_, ?_, ?_⟩
  · intro h1
    simp [h1, rateLimitMessage]
  · intro h1
    simp [h1, serverErrorMessage]
  · intro h1 h2
    simp [h1, h2, genericMessage]
  · intro h1
    simp [errorStatus, h1, genericMessage]
  · by_cases h1 : errorStatus err = some 429
    · left
      rw [if_pos h1]
      exact ⟨rfl, rateLimit_ne_serverError, rateLimit_ne_generic⟩
    · by_cases h2 : errorStatus err = some 500
      · right; left
        rw [if_neg h1, if_pos h2]
        exact ⟨fun e => rateLimit_ne_serverError e.symm, rfl, serverError_ne_generic⟩
      · right; right
        rw [if_neg h1, if_neg h2]
        exact ⟨fun e => rateLimit_ne_generic e.symm, fun e => serverError_ne_generic e.symm,
          rfl⟩
  · simp [handleSubmitResume, Effect.isPost]

/-! ## Error and result after a submission -/

theorem isNullish_of_truthy (v : JSValue) (h : v.truthy = true) : v.isNullish = false := by
  cases v <;> simp_all [JSValue.truthy, JSValue.isNullish]

theorem errorMessage_not_nullish (err : AxiosError) : (errorMessage err).isNullish = false := by
  by_cases h : (errorField err).truthy = true
  · rw [errorMessage_of_truthy err h]
    exact isNullish_of_truthy _ h
  · have hf : (errorField err).truthy = false := by simpa using h
    rw [errorMessage_of_falsy err hf]
    split_ifs <;> rfl

/-- C4, as amended: exactly one of the stored error and the stored result is
non-null after `handleSubmit`, provided that a submit rejected by validation
started with no stored result and that a successful response has a body
other than `null` and `undefined`; a submit that issued its request also
ends with the loading flag false. -/
theorem handleSubmit_error_xor_result (net : String → Request → Outcome) (s : State)
    (hblank : jsTrim s.itemName = "" → s.result.isNullish = true)
    (hbody : strTruthy (jsTrim s.itemName) = true → ∀ response,
      net "/generate-item-details" { item_name := jsTrim s.itemName, model := s.model }
        = .resolved response → response.data.isNullish = false) :
    (((handleSubmit net s).1.error.isNullish = false ∧
        (handleSubmit net s).1.result.isNullish = true) ∨
      ((handleSubmit net s).1.error.isNullish = true ∧
        (handleSubmit net s).1.result.isNullish = false)) ∧
    (strTruthy (jsTrim s.itemName) = true → (handleSubmit net s).1.loading = false) := by
  by_cases h : strTruthy (jsTrim s.itemName) = true
  · cases hnet : net "/generate-item-details" { item_name := jsTrim s.itemName, model := s.model }
      with
    | resolved response =>
      rw [handleSubmit_resolved_state net s response h hnet]
      exact ⟨Or.inr ⟨rfl, hbody h response hnet⟩, fun _ => rfl⟩
    | rejected err =>
      rw [handleSubmit_rejected_error net s err h hnet]
      exact ⟨Or.inl ⟨errorMessage_not_nullish err, rfl⟩, fun _ => rfl⟩
  · have hb : jsTrim s.itemName = "" := by
      by_contra hne
      exact h ((strTruthy_eq_true_iff _).2 hne)
    rw [handleSubmit_blank net s hb]
    exact ⟨Or.inl ⟨rfl, hblank hb⟩, fun hh => absurd hh h⟩

/-- C4 fails as stated, in both directions. After a successful submission
for "Pizza", clearing the input to a blank and submitting again leaves the
validation error and the earlier result both stored, with loading false; and
a successful response whose body is `null` leaves both the error and the
result null, with loading false. -/
theorem handleSubmit_both_or_neither :
    ((run initialWorld
        [.input "Pizza", .submit,
          .settle 0 (.resolved { data := .obj [("description", .str "d")], status := 200 }),
          .input " ", .submit]).state.loading = false ∧
      (run initialWorld
        [.input "Pizza", .submit,
          .settle 0 (.resolved { data := .obj [("description", .str "d")], status := 200 }),
          .input " ", .submit]).state.error.isNullish = false ∧
      (run initialWorld
        [.input "Pizza", .submit,
          .settle 0 (.resolved { data := .obj [("description", .str "d")], status := 200 }),
          .input " ", .submit]).state.result.isNullish = false) ∧
    ((handleSubmit (fun _ _ => .resolved { data := .null, status := 200 })
        { initialState with itemName := "Pizza" }).1.loading = false ∧
      (handleSubmit (fun _ _ => .resolved { data := .null, status := 200 })
        { initialState with itemName := "Pizza" }).1.error.isNullish = true ∧
      (handleSubmit (fun _ _ => .resolved { data := .null, status := 200 })
        { initialState with itemName := "Pizza" }).1.result.isNullish = true) := by
  refine ⟨⟨?_, ?_, ?_⟩, ⟨?_, ?_, ?_⟩⟩ <;> rfl

/-! ## Successful requests -/

/-- C5: after a successful response to a submit with a non-empty trimmed
name, the stored result is the response body, the error is null, the success
message is "Content generated successfully!", and whatever result block is
rendered shows, and passes to `copyToClipboard`, the `description` and
`upsell_suggestion` properties of that body unchanged; the block is rendered
whenever the body is truthy. -/
theorem handleSubmit_resolved_shows_response (net : String → Request → Outcome) (s : State)
    (response : AxiosResponse) (h : strTruthy (jsTrim s.itemName) = true)
    (hnet : net "/generate-item-details" { item_name := jsTrim s.itemName, model := s.model }
      = .resolved response) :
    (handleSubmit net s).1.result = response.data ∧
    (handleSubmit net s).1.error = .null ∧
    (handleSubmit net s).1.success = some "Content generated successfully!" ∧
    (render (handleSubmit net s).1).successBanner = some "Content generated successfully!" ∧
    (∀ v, (render (handleSubmit net s).1).resultBlock = some v →
      v.description = response.data.get "description" ∧
      v.descriptionCopy = response.data.get "description" ∧
      v.upsell = response.data.get "upsell_suggestion" ∧
      v.upsellCopy = response.data.get "upsell_suggestion") ∧
    (response.data.truthy = true →
      ∃ v, (render (handleSubmit net s).1).resultBlock = some v) := by
  rw [handleSubmit_resolved_state net s response h hnet]
  refine ⟨rfl, rfl, rfl, ?_, ?_, ?_⟩
  · simp [render, strTruthy, JSValue.truthy]
  · intro v hv
    simp only [render, renderResult] at hv
    split_ifs at hv with ht
    cases hv
    exact ⟨rfl, rfl, rfl, rfl⟩
  · intro ht
    simp [render, renderResult, ht]

/-! ## The request -/

theorem head_dropWhile_false (p : Char → Bool) (l : List Char) (c : Char)
    (h : (l.dropWhile p).head? = some c) : p c = false := by
  have hnot := List.head?_dropWhile_not p l
  rw [h] at hnot
  exact hnot

theorem trimChars_getLast (l : List Char) (c : Char)
    (h : (trimChars l).getLast? = some c) : isJSWhiteSpace c = false := by
  unfold trimChars at h
  rw [List.getLast?_reverse] at h
  exact head_dropWhile_false _ _ c h

theorem trimChars_head (l : List Char) (c : Char)
    (h : (trimChars l).head? = some c) : isJSWhiteSpace c = false := by
  have hpre : trimChars l <+: l.dropWhile isJSWhiteSpace := by
    have := List.rdropWhile_prefix (p := isJSWhiteSpace) (l := l.dropWhile isJSWhiteSpace)
    simpa [trimChars, List.rdropWhile] using this
  obtain ⟨t, ht⟩ := hpre
  apply head_dropWhile_false isJSWhiteSpace l c
  rw [← ht, List.head?_append, h]
  rfl

theorem perform_state (w : World) (e : Effect) : (perform w e).state = w.state := by
  cases e <;> rfl

theorem foldl_perform_state (es : List Effect) (w : World) :
    (es.foldl perform w).state = w.state := by
  induction es generalizing w with
  | nil => rfl
  | cons e es ih => rw [List.foldl_cons, ih, perform_state]

theorem fireAll_eq (timers : List Timer) (s : State) :
    fireAll timers s = s ∨ fireAll timers s = { s with success := none } := by
  induction timers generalizing s with
  | nil => exact Or.inl rfl
  | cons t ts ih =>
    cases t with
    | mk due cb =>
      cases cb
      rcases ih { s with success := none } with h | h
      · exact Or.inr h
      · exact Or.inr h

theorem fireAll_model (timers : List Timer) (s : State) :
    (fireAll timers s).model = s.model := by
  rcases fireAll_eq timers s with h | h <;> rw [h]

theorem fireAll_loading (timers : List Timer) (s : State) :
    (fireAll timers s).loading = s.loading := by
  rcases fireAll_eq timers s with h | h <;> rw [h]

theorem handleModelToggle_isModel (s : State) : IsModel (handleModelToggle s).model := by
  unfold handleModelToggle IsModel
  by_cases h : s.model = "gpt-3.5-turbo"
  · right; simp [h]
  · left; simp [h]

theorem handleSubmitStart_model (s : State) : (handleSubmitStart s).1.model = s.model := by
  unfold handleSubmitStart
  split_ifs <;> rfl

theorem handleSubmitResume_model (o : Outcome) (s : State) :
    (handleSubmitResume o s).1.model = s.model := by
  cases o <;> rfl

theorem step_isModel (w : World) (e : Event) (h : IsModel w.state.model) :
    IsModel (step w e).state.model := by
  cases e with
  | input text => exact h
  | toggle => exact handleModelToggle_isModel w.state
  | submit =>
    have hm := handleSubmitStart_model w.state
    simp only [step]
    cases hs : handleSubmitStart w.state with
    | mk s1 req =>
      rw [hs] at hm
      have hm1 : s1.model = w.state.model := hm
      cases req with
      | none =>
        show IsModel s1.model
        rw [hm1]
        exact h
      | some r =>
        show IsModel (perform _ _).state.model
        rw [perform_state]
        show IsModel s1.model
        rw [hm1]
        exact h
  | settle i o =>
    simp only [step]
    split_ifs
    · rw [foldl_perform_state]
      simpa [handleSubmitResume_model] using h
    · exact h
  | copy text =>
    simp only [step]
    rw [foldl_perform_state]
    exact h
  | tick ms =>
    simp only [step]
    rw [fireAll_model]
    exact h

theorem run_isModel (evs : List Event) (w : World) (h : IsModel w.state.model) :
    IsModel (run w evs).state.model := by
  induction evs generalizing w with
  | nil => exact h
  | cons e es ih => exact ih (step w e) (step_isModel w e h)

/-- C6: when the trim of the item name is non-empty, `handleSubmit` issues
exactly one POST, to `/generate-item-details`, with `item_name` the trim of
the input (non-empty, first and last character not white space) and `model`
the selected model; the page gains exactly that one request in flight; in
every reachable world the selected model is "gpt-3.5-turbo" or "gpt-4"; and
for the input "Margherita Pizza" on the initial state the body is
item_name "Margherita Pizza", model "gpt-3.5-turbo". -/
theorem handleSubmit_posts_once (net : String → Request → Outcome) (w : World)
    (h : strTruthy (jsTrim w.state.itemName) = true) :
    (handleSubmit net w.state).2.filter Effect.isPost
      = [.post "/generate-item-details"
          { item_name := jsTrim w.state.itemName, model := w.state.model }] ∧
    (handleSubmitStart w.state).2
      = some { item_name := jsTrim w.state.itemName, model := w.state.model } ∧
    (step w .submit).inFlight
      = w.inFlight ++ [{ item_name := jsTrim w.state.itemName, model := w.state.model }] ∧
    jsTrim w.state.itemName ≠ "" ∧
    (∀ c, (jsTrim w.state.itemName).data.head? = some c → isJSWhiteSpace c = false) ∧
    (∀ c, (jsTrim w.state.itemName).data.getLast? = some c → isJSWhiteSpace c = false) ∧
    (∀ evs : List Event, (run initialWorld evs).state.model = "gpt-3.5-turbo" ∨
      (run initialWorld evs).state.model = "gpt-4") ∧
    (handleSubmitStart { initialState with itemName := "Margherita Pizza" }).2
      = some { item_name := "Margherita Pizza", model := "gpt-3.5-turbo" } := by
  refine ⟨?_, ?_, ?_, ?_, ?_, ?_, ?_, ?_⟩
  · rw [handleSubmit_named net w.state h]
    cases net "/generate-item-details"
      { item_name := jsTrim w.state.itemName, model := w.state.model } <;>
      simp [handleSubmitResume, Effect.isPost]
  · rw [handleSubmitStart_named w.state h]
  · simp [step, handleSubmitStart_named w.state h, perform]
  · exact (strTruthy_eq_true_iff _).1 h
  · intro c hc
    exact trimChars_head _ c hc
  · intro c hc
    exact trimChars_getLast _ c hc
  · intro evs
    exact run_isModel evs initialWorld (Or.inl rfl)
  · rfl

/-! ## The model toggle -/

theorem iterate_toggle_isModel (s : State) (h : IsModel s.model) (n : Nat) :
    IsModel (handleModelToggle^[n] s).model := by
  induction n with
  | zero => exact h
  | succ k _ =>
    rw [Function.iterate_succ_apply']
    exact handleModelToggle_isModel _

/-- C9: starting from a state with the initial model "gpt-3.5-turbo", after
any number of toggles the model is "gpt-3.5-turbo" or "gpt-4"; one more
toggle turns each of the two into the other, so it always changes the model;
two more toggles restore the state; and a toggle leaves the item name, the
loading flag, the result, the error and the success message alone. -/
theorem handleModelToggle_flips (s₀ : State) (h₀ : s₀.model = "gpt-3.5-turbo") (n : Nat) :
    initialState.model = "gpt-3.5-turbo" ∧
    ((handleModelToggle^[n] s₀).model = "gpt-3.5-turbo" ∨
      (handleModelToggle^[n] s₀).model = "gpt-4") ∧
    ((handleModelToggle^[n] s₀).model = "gpt-3.5-turbo" →
      (handleModelToggle (handleModelToggle^[n] s₀)).model = "gpt-4") ∧
    ((handleModelToggle^[n] s₀).model = "gpt-4" →
      (handleModelToggle (handleModelToggle^[n] s₀)).model = "gpt-3.5-turbo") ∧
    (handleModelToggle (handleModelToggle^[n] s₀)).model ≠ (handleModelToggle^[n] s₀).model ∧
    handleModelToggle (handleModelToggle (handleModelToggle^[n] s₀)) = handleModelToggle^[n] s₀ ∧
    (handleModelToggle (handleModelToggle^[n] s₀)).itemName = (handleModelToggle^[n] s₀).itemName ∧
    (handleModelToggle (handleModelToggle^[n] s₀)).loading = (handleModelToggle^[n] s₀).loading ∧
    (handleModelToggle (handleModelToggle^[n] s₀)).result = (handleModelToggle^[n] s₀).result ∧
    (handleModelToggle (handleModelToggle^[n] s₀)).error = (handleModelToggle^[n] s₀).error ∧
    (handleModelToggle (handleModelToggle^[n] s₀)).success = (handleModelToggle^[n] s₀).success := by
  have hm : IsModel (handleModelToggle^[n] s₀).model :=
    iterate_toggle_isModel s₀ (Or.inl h₀) n
  generalize handleModelToggle^[n] s₀ = s at hm
  refine ⟨rfl, hm, ?_, ?_, ?_, ?_, rfl, rfl, rfl, rfl, rfl⟩
  · intro h
    simp [handleModelToggle, h]
  · intro h
    simp [handleModelToggle, h]
  · rcases hm with h | h <;> simp [handleModelToggle, h]
  · cases s with
    | mk itemName model loading result error success =>
      rcases hm with h | h
      · have h1 : model = "gpt-3.5-turbo" := h
        subst h1
        simp [handleModelToggle]
      · have h1 : model = "gpt-4" := h
        subst h1
        simp [handleModelToggle]

/-! ## The loading flag -/

theorem step_loading_inFlight (w : World) (e : Event)
    (h : w.state.loading = true → w.inFlight ≠ []) :
    (step w e).state.loading = true → (step w e).inFlight ≠ [] := by
  cases e with
  | input text => exact h
  | toggle => exact h
  | submit =>
    by_cases hb : strTruthy (jsTrim w.state.itemName) = true
    · intro _
      simp [step, handleSubmitStart_named w.state hb, perform]
    · have hb2 : jsTrim w.state.itemName = "" := by
        by_contra hne
        exact hb ((strTruthy_eq_true_iff _).2 hne)
      rw [step_submit_blank w hb2]
      exact h
  | settle i o =>
    simp only [step]
    split_ifs
    · intro hl
      rw [foldl_perform_state] at hl
      cases o <;> simp [handleSubmitResume] at hl
    · exact h
  | copy text =>
    simpa [step, copyToClipboard, perform] using h
  | tick ms =>
    simp only [step]
    rw [fireAll_loading]
    exact h

theorem run_loading_inFlight (evs : List Event) (w : World)
    (h : w.state.loading = true → w.inFlight ≠ []) :
    (run w evs).state.loading = true → (run w evs).inFlight ≠ [] := by
  induction evs generalizing w with
  | nil => exact h
  | cons e es ih => exact ih (step w e) (step_loading_inFlight w e h)

/-- C10: the loading flag is false initially; a submit with a non-empty
trimmed name hands its request to axios from a state in which loading is
true and the error, the success message and the result are cleared; the
continuation sets loading to false whether the request succeeded or failed,
so loading is false once `handleSubmit` has run to its end; the submit
button is disabled whenever loading is true; and in every reachable world
loading is true only while some request is in flight. -/
theorem loading_only_while_in_flight :
    initialState.loading = false ∧
    (∀ s : State, strTruthy (jsTrim s.itemName) = true →
      (handleSubmitStart s).1.loading = true ∧
      (handleSubmitStart s).1.error = .null ∧
      (handleSubmitStart s).1.success = none ∧
      (handleSubmitStart s).1.result = .null ∧
      (handleSubmitStart s).2 = some { item_name := jsTrim s.itemName, model := s.model }) ∧
    (∀ (o : Outcome) (s : State), (handleSubmitResume o s).1.loading = false) ∧
    (∀ (net : String → Request → Outcome) (s : State), strTruthy (jsTrim s.itemName) = true →
      (handleSubmit net s).1.loading = false) ∧
    (∀ s : State, s.loading = true → (render s).submitDisabled = true) ∧
    (∀ evs : List Event, (run initialWorld evs).state.loading = true →
      (run initialWorld evs).inFlight ≠ []) := by
  refine ⟨rfl, ?_, ?_, ?_, ?_, ?_⟩
  · intro s h
    rw [handleSubmitStart_named s h]
    exact ⟨rfl, rfl, rfl, rfl, rfl⟩
  · intro o s
    cases o <;> rfl
  · intro net s h
    rw [handleSubmit_named net s h]
    cases net "/generate-item-details" { item_name := jsTrim s.itemName, model := s.model } <;>
      rfl
  · intro s h
    simp [render, h]
  · intro evs
    exact run_loading_inFlight evs initialWorld (fun h => absurd h (by decide))

/-! ## Copying and its timer -/

theorem step_copy (text : JSValue) (w : World) :
    step w (.copy text) =
      { w with state := { w.state with success := some "Copied to clipboard!" },
               clipboard := some text,
               timers := w.timers ++ [{ due := w.now + 2000, cb := .clearSuccess }],
               log := w.log ++ [.clipboardWrite text, .setTimeout .clearSuccess 2000] } := by
  simp [step, copyToClipboard, perform]

theorem fireAll_success (timers : List Timer) (s : State) (h : timers ≠ []) :
    (fireAll timers s).success = none := by
  cases timers with
  | nil => exact absurd rfl h
  | cons t ts =>
    cases t with
    | mk due cb =>
      cases cb
      rcases fireAll_eq ts { s with success := none } with h1 | h1
      · show (fireAll ts { s with success := none }).success = none
        rw [h1]
      · show (fireAll ts { s with success := none }).success = none
        rw [h1]

theorem perform_now (w : World) (e : Effect) : (perform w e).now = w.now := by
  cases e <;> rfl

theorem foldl_perform_now (es : List Effect) (w : World) :
    (es.foldl perform w).now = w.now := by
  induction es generalizing w with
  | nil => rfl
  | cons e es ih => rw [List.foldl_cons, ih, perform_now]

theorem perform_timers_mem (w : World) (e : Effect) (t : Timer) (h : t ∈ w.timers) :
    t ∈ (perform w e).timers := by
  cases e with
  | post url body => exact h
  | consoleError label err => exact h
  | clipboardWrite text => exact h
  | setTimeout cb ms => exact List.mem_append_left _ h

theorem foldl_perform_timers_mem (es : List Effect) (w : World) (t : Timer)
    (h : t ∈ w.timers) : t ∈ (es.foldl perform w).timers := by
  induction es generalizing w with
  | nil => exact h
  | cons e es ih => exact ih (perform w e) (perform_timers_mem w e t h)

theorem step_now (w : World) (e : Event) : (step w e).now = w.now + elapsed [e] := by
  cases e with
  | input text => rfl
  | toggle => rfl
  | submit =>
    simp only [step, elapsed]
    cases handleSubmitStart w.state with
    | mk s1 req =>
      cases req with
      | none => rfl
      | some r => rfl
  | settle i o =>
    simp only [step, elapsed]
    split_ifs
    · rw [foldl_perform_now]
      rfl
    · rfl
  | copy text =>
    simp only [step, elapsed]
    rw [foldl_perform_now]
    rfl
  | tick ms => rfl

theorem step_timers_mem (w : World) (e : Event) (t : Timer) (h : t ∈ w.timers)
    (hdue : w.now + elapsed [e] < t.due) : t ∈ (step w e).timers := by
  cases e with
  | input text => exact h
  | toggle => exact h
  | submit =>
    simp only [step]
    cases handleSubmitStart w.state with
    | mk s1 req =>
      cases req with
      | none => exact h
      | some r => exact h
  | settle i o =>
    simp only [step]
    split_ifs
    · exact foldl_perform_timers_mem _ _ t h
    · exact h
  | copy text =>
    simp only [step]
    exact foldl_perform_timers_mem _ _ t h
  | tick ms =>
    simp only [step, List.mem_filter]
    refine ⟨h, ?_⟩
    simp only [elapsed, Nat.add_zero] at hdue
    simp
    exact hdue

theorem elapsed_cons (e : Event) (es : List Event) :
    elapsed (e :: es) = elapsed [e] + elapsed es := by
  cases e <;> simp [elapsed]

theorem run_timers_mem (evs : List Event) (w : World) (t : Timer) (h : t ∈ w.timers)
    (hdue : w.now + elapsed evs < t.due) :
    t ∈ (run w evs).timers ∧ (run w evs).now = w.now + elapsed evs := by
  induction evs generalizing w with
  | nil => exact ⟨h, rfl⟩
  | cons e es ih =>
    rw [elapsed_cons] at hdue
    have hnow := step_now w e
    have hmem := step_timers_mem w e t h (by omega)
    have := ih (step w e) hmem (by omega)
    refine ⟨this.1, ?_⟩
    show (run (step w e) es).now = _
    rw [this.2, hnow, elapsed_cons e es]
    omega

theorem step_tick_success (w : World) (d : Nat) (t : Timer) (h : t ∈ w.timers)
    (hdue : t.due ≤ w.now + d) : (step w (.tick d)).state.success = none := by
  simp only [step]
  apply fireAll_success
  intro hnil
  have : t ∈ w.timers.filter (fun t => decide (t.due ≤ w.now + d)) := by
    simp [List.mem_filter, h, hdue]
  rw [hnil] at this
  exact absurd this (List.not_mem_nil t)

/-- C8: `copyToClipboard text` hands `text` to the clipboard, sets the
success message to "Copied to clipboard!" and changes no other state cell,
and schedules one timer, 2000 ms ahead. Its callback sets the success message
of whatever state it meets to null and touches nothing else; so whatever
events fill the first part of the 2000 ms, once the clock passes the due
time the success message is null, and with no event at all it is null after
2000 ms. -/
theorem copyToClipboard_sets_then_clears (text : JSValue) (w : World) :
    (copyToClipboard text w.state).1
      = { w.state with success := some "Copied to clipboard!" } ∧
    (copyToClipboard text w.state).2
      = [.clipboardWrite text, .setTimeout .clearSuccess 2000] ∧
    (step w (.copy text)).clipboard = some text ∧
    (step w (.copy text)).state = { w.state with success := some "Copied to clipboard!" } ∧
    (step w (.copy text)).timers
      = w.timers ++ [{ due := w.now + 2000, cb := .clearSuccess }] ∧
    (∀ s : State, runCallback .clearSuccess s = { s with success := none }) ∧
    (∀ (evs : List Event) (d : Nat), elapsed evs < 2000 → 2000 ≤ elapsed evs + d →
      (run (step w (.copy text)) (evs ++ [.tick d])).state.success = none) ∧
    (run (step w (.copy text)) [.tick 2000]).state.success = none := by
  have key : ∀ (evs : List Event) (d : Nat), elapsed evs < 2000 → 2000 ≤ elapsed evs + d →
      (run (step w (.copy text)) (evs ++ [.tick d])).state.success = none := by
    intro evs d h1 h2
    have hmem : ({ due := w.now + 2000, cb := .clearSuccess } : Timer)
        ∈ (step w (.copy text)).timers := by
      rw [step_copy]
      exact List.mem_append_right _ (List.mem_singleton.2 rfl)
    have hnow : (step w (.copy text)).now = w.now := by
      rw [step_copy]
    have hrun := run_timers_mem evs (step w (.copy text)) _ hmem
      (by rw [hnow]; show w.now + elapsed evs < w.now + 2000; omega)
    have happ : run (step w (.copy text)) (evs ++ [.tick d])
        = step (run (step w (.copy text)) evs) (.tick d) := by
      simp [run, List.foldl_append]
    rw [happ]
    apply step_tick_success _ d _ hrun.1
    rw [hrun.2, hnow]
    show w.now + 2000 ≤ w.now + elapsed evs + d
    omega
  refine ⟨rfl, rfl, ?_, ?_, ?_, ?_, key, ?_⟩
  · rw [step_copy]
  · rw [step_copy]
  · rw [step_copy]
  · intro s
    rfl
  · exact key [] 2000 (by simp [elapsed]) (by simp [elapsed])

/-! ## The theorems at concrete inputs -/

/-- C1 at the item name made of a space, a tab and a space. -/
theorem handleSubmit_blank_name_no_post_witness :
    (∀ c ∈ " \t ".data, isJSWhiteSpace c = true) ∧
    (handleSubmit (fun _ _ => .resolved { data := .null, status := 200 })
      { initialState with itemName := " \t " }).2 = [] ∧
    (handleSubmit (fun _ _ => .resolved { data := .null, status := 200 })
      { initialState with itemName := " \t " }).1.error
      = .str "Please enter a food item name" :=
  ⟨by decide,
    (handleSubmit_blank_name_no_post (fun _ _ => .resolved { data := .null, status := 200 })
      { initialWorld with state := { initialState with itemName := " \t " } }
      (by decide)).2.1,
    (handleSubmit_blank_name_no_post (fun _ _ => .resolved { data := .null, status := 200 })
      { initialWorld with state := { initialState with itemName := " \t " } }
      (by decide)).2.2.2.1⟩

/-- C7 at an empty item name in a state that holds a result and a success message. -/
theorem handleSubmit_blank_name_frame_witness :
    jsTrim "" = "" ∧
    (handleSubmit (fun _ _ => .resolved { data := .null, status := 200 })
      { itemName := "", model := "gpt-4", loading := false,
        result := .obj [("description", .str "d")], error := .null,
        success := some "Copied to clipboard!" }).1.result
      = .obj [("description", .str "d")] ∧
    (handleSubmit (fun _ _ => .resolved { data := .null, status := 200 })
      { itemName := "", model := "gpt-4", loading := false,
        result := .obj [("description", .str "d")], error := .null,
        success := some "Copied to clipboard!" }).1.success
      = some "Copied to clipboard!" :=
  ⟨by decide,
    (handleSubmit_blank_name_frame (fun _ _ => .resolved { data := .null, status := 200 })
      { itemName := "", model := "gpt-4", loading := false,
        result := .obj [("description", .str "d")], error := .null,
        success := some "Copied to clipboard!" } (by decide)).2.2.2.2.1,
    (handleSubmit_blank_name_frame (fun _ _ => .resolved { data := .null, status := 200 })
      { itemName := "", model := "gpt-4", loading := false,
        result := .obj [("description", .str "d")], error := .null,
        success := some "Copied to clipboard!" } (by decide)).2.2.2.1⟩

/-- C2, as amended, at a 429 response whose body carries the error "Quota exceeded". -/
theorem handleSubmit_truthy_body_error_wins_witness :
    strTruthy (jsTrim "Pizza") = true ∧
    ((JSValue.obj [("error", .str "Quota exceeded")]).get "error").truthy = true ∧
    (handleSubmit
      (fun _ _ => .rejected
        { response := some { data := .obj [("error", .str "Quota exceeded")], status := 429 } })
      { initialState with itemName := "Pizza" }).1.error = .str "Quota exceeded" :=
  ⟨by decide, by decide,
    handleSubmit_truthy_body_error_wins
      (fun _ _ => .rejected
        { response := some { data := .obj [("error", .str "Quota exceeded")], status := 429 } })
      { initialState with itemName := "Pizza" }
      { data := .obj [("error", .str "Quota exceeded")], status := 429 }
      (by decide) rfl (by decide)⟩

/-- C3 at a 429 response with an empty body. -/
theorem handleSubmit_status_messages_witness :
    strTruthy (jsTrim "Pizza") = true ∧
    (errorField { response := some { data := .str "", status := 429 } }).truthy = false ∧
    (handleSubmit
      (fun _ _ => .rejected { response := some { data := .str "", status := 429 } })
      { initialState with itemName := "Pizza" }).1.error
      = .str "Rate limit exceeded. Please wait a moment before trying again." :=
  ⟨by decide, by decide,
    (handleSubmit_status_messages
      (fun _ _ => .rejected { response := some { data := .str "", status := 429 } })
      { initialState with itemName := "Pizza" }
      { response := some { data := .str "", status := 429 } }
      (by decide) rfl (by decide)).1 rfl⟩

/-- C4, as amended, at a successful response with an object body. -/
theorem handleSubmit_error_xor_result_witness :
    (jsTrim "Pizza" = "" → JSValue.null.isNullish = true) ∧
    (JSValue.obj [("description", .str "d")]).isNullish = false ∧
    (handleSubmit
      (fun _ _ => .resolved { data := .obj [("description", .str "d")], status := 200 })
      { initialState with itemName := "Pizza" }).1.error.isNullish = true ∧
    (handleSubmit
      (fun _ _ => .resolved { data := .obj [("description", .str "d")], status := 200 })
      { initialState with itemName := "Pizza" }).1.result.isNullish = false :=
  ⟨by decide, by decide,
    ((handleSubmit_error_xor_result
      (fun _ _ => .resolved { data := .obj [("description", .str "d")], status := 200 })
      { initialState with itemName := "Pizza" }
      (by decide)
      (by
        intro _ response hres
        cases hres
        rfl)).1.resolve_left (by decide))⟩

/-- C5 at the Margherita Pizza response. -/
theorem handleSubmit_resolved_shows_response_witness :
    strTruthy (jsTrim "Margherita Pizza") = true ∧
    (handleSubmit
      (fun _ _ => .resolved
        { data := .obj [("item_name", .str "Margherita Pizza"), ("description", .str "..."),
            ("upsell_suggestion", .str "..."), ("model_used", .str "gpt-3.5-turbo"),
            ("generated_at", .str "2024-01-01T00:00:00Z")], status := 200 })
      { initialState with itemName := "Margherita Pizza" }).1.success
      = some "Content generated successfully!" :=
  ⟨by decide,
    (handleSubmit_resolved_shows_response
      (fun _ _ => .resolved
        { data := .obj [("item_name", .str "Margherita Pizza"), ("description", .str "..."),
            ("upsell_suggestion", .str "..."), ("model_used", .str "gpt-3.5-turbo"),
            ("generated_at", .str "2024-01-01T00:00:00Z")], status := 200 })
      { initialState with itemName := "Margherita Pizza" }
      { data := .obj [("item_name", .str "Margherita Pizza"), ("description", .str "..."),
            ("upsell_suggestion", .str "..."), ("model_used", .str "gpt-3.5-turbo"),
            ("generated_at", .str "2024-01-01T00:00:00Z")], status := 200 }
      (by decide) rfl).2.2.1⟩

/-- C6 at the item name "Margherita Pizza" with white space around it. -/
theorem handleSubmit_posts_once_witness :
    strTruthy (jsTrim "  Margherita Pizza ") = true ∧
    (handleSubmit (fun _ _ => .rejected { response := none })
      { initialState with itemName := "  Margherita Pizza " }).2.filter Effect.isPost
      = [.post "/generate-item-details"
          { item_name := "Margherita Pizza", model := "gpt-3.5-turbo" }] :=
  ⟨by decide,
    (handleSubmit_posts_once (fun _ _ => .rejected { response := none })
      { initialWorld with state := { initialState with itemName := "  Margherita Pizza " } }
      (by decide)).1⟩

/-- C9 at the initial state after three toggles. -/
theorem handleModelToggle_flips_witness :
    initialState.model = "gpt-3.5-turbo" ∧
    (handleModelToggle (handleModelToggle^[3] initialState)).model
      ≠ (handleModelToggle^[3] initialState).model ∧
    handleModelToggle (handleModelToggle (handleModelToggle^[3] initialState))
      = handleModelToggle^[3] initialState :=
  ⟨rfl, (handleModelToggle_flips initialState rfl 3).2.2.2.2.1,
    (handleModelToggle_flips initialState rfl 3).2.2.2.2.2.1⟩

/-- C8 at a copy followed, within 1500 ms, by typing, a submit and its successful response. -/
theorem copyToClipboard_sets_then_clears_witness :
    elapsed [.input "Pizza", .tick 500, .submit,
      .settle 0 (.resolved { data := .obj [("description", .str "d")], status := 200 }),
      .tick 1000] < 2000 ∧
    (run (step initialWorld (.copy (.str "X")))
      ([.input "Pizza", .tick 500, .submit,
        .settle 0 (.resolved { data := .obj [("description", .str "d")], status := 200 }),
        .tick 1000] ++ [.tick 500])).state.success = none :=
  ⟨by decide,
    (copyToClipboard_sets_then_clears (.str "X") initialWorld).2.2.2.2.2.2.1
      [.input "Pizza", .tick 500, .submit,
        .settle 0 (.resolved { data := .obj [("description", .str "d")], status := 200 }),
        .tick 1000] 500 (by decide) (by decide)⟩

/-- C10 at the world reached by typing "Pizza" and submitting. -/
theorem loading_only_while_in_flight_witness :
    (run initialWorld [.input "Pizza", .submit]).state.loading = true ∧
    (run initialWorld [.input "Pizza", .submit]).inFlight ≠ [] :=
  ⟨by decide, loading_only_while_in_flight.2.2.2.2.2 [.input "Pizza", .submit] (by decide)⟩

end MenuMind
